import Mathlib

/-!
Verification of the perception-and-counting core of the Rehabilitation
Framework (src/Exercises.py): color-marker localization, calibration-point
capture under a dwell timer, and the cyclic repetition counter.

The Python code is shallowly embedded: Python ints become Lean integers,
floating point quantities (timer seconds, contour moments, radii) become
rationals, fallible constructors and property setters become Except values,
and the two loops (the VideoReader capture thread and the calibration loop)
become step functions driven by finite traces of environment inputs.
-/

namespace Rehab

/-- Python runtime errors raised by the embedded code paths. -/
inductive PyErr where
  | typeError
  | valueError
  | nameError
  deriving DecidableEq, Repr

/-- A Python value passed where an int is expected: either an actual int, or a
value of some other type, which the checks of the form type(x) is int reject. -/
inductive PyNum where
  | int (n : ℤ)
  | nonint
  deriving DecidableEq, Repr

/-- Whether a fallible Python call returned normally (no exception raised). -/
def accepts {α : Type} : Except PyErr α → Bool
  | .ok _ => true
  | .error _ => false

/-! ## VideoReader: configuration setters (Exercises.py lines 96-130) -/

/-- The widths accepted by the VideoReader.camera_resolution setter (line 116). -/
def allowedWidths : List ℤ := [320, 424, 640, 848, 960, 1280, 1920]

/-- The heights accepted by the VideoReader.camera_resolution setter (line 116). -/
def allowedHeights : List ℤ := [180, 240, 360, 480, 540, 720, 1080]

/-- The VideoReader.camera_resolution setter (lines 110-120), restricted to the
case where the argument is already a tuple of two Python ints; arguments of any
other shape raise TypeError before this membership check is reached.  The check
is per axis: the width must be in one list and the height in the other. -/
def setCameraResolution (w h : ℤ) : Except PyErr (ℤ × ℤ) :=
  if w ∉ allowedWidths ∨ h ∉ allowedHeights then .error .valueError
  else .ok (w, h)

/-- The VideoReader.color setter (lines 125-130): an int in range(3). -/
def setColor (n : ℤ) : Except PyErr ℤ :=
  if 0 ≤ n ∧ n < 3 then .ok n else .error .typeError

/-! ## Exercise: configuration setters (lines 306-349) -/

/-- The Exercise.repetitions_limit setter (lines 309-314): membership in
range(1,100), so the accepted ints are 1 through 99. -/
def setRepetitionsLimit (n : ℤ) : Except PyErr ℤ :=
  if 1 ≤ n ∧ n < 100 then .ok n else .error .valueError

/-- The Exercise.calibration_duration setter (lines 319-326): first a
type(x) is int check (TypeError), then membership in range(0,30), so the
accepted ints are 0 through 29 even though the accompanying comment and the
ValueError message both speak of values up to 30. -/
def setCalibrationDuration (v : PyNum) : Except PyErr ℤ :=
  match v with
  | .nonint => .error .typeError
  | .int n => if 0 ≤ n ∧ n < 30 then .ok n else .error .valueError

/-- The Exercise.limb setter (lines 332-337): an int in range(4). -/
def setLimb (n : ℤ) : Except PyErr ℤ :=
  if 0 ≤ n ∧ n < 4 then .ok n else .error .typeError

/-- The Exercise.time_limit setter (lines 342-349): a type check, then
membership in range(7200). -/
def setTimeLimit (v : PyNum) : Except PyErr ℤ :=
  match v with
  | .nonint => .error .typeError
  | .int n => if 0 ≤ n ∧ n < 7200 then .ok n else .error .valueError

/-! ## Tolerances (Exercise constructor, lines 297-303)

Python 2 division of ints is floor division; all quantities reaching these
lines are positive, where Lean integer division agrees with it. -/

/-- The tolerance computation at the end of the Exercise constructor: start
from width/8 and height/8, then the width branch if the width exceeds twice
the height, else the height branch if the height exceeds twice the width. -/
def tolerances (w h : ℤ) : ℤ × ℤ :=
  if 2 * h < w then (w / 6, h / 8)
  else if 2 * w < h then (w / 8, h / 6)
  else (w / 8, h / 8)

/-- The tolerance rule as the specification words it: width/8 and height/8,
with toleranceX overridden to width/6 whenever the width exceeds twice the
height, and toleranceY overridden to height/6 whenever the height exceeds
twice the width (the two override conditions stated independently). -/
def specTolerances (w h : ℤ) : ℤ × ℤ :=
  ((if 2 * h < w then w / 6 else w / 8), (if 2 * w < h then h / 6 else h / 8))

/-! ## Marker localization (VideoReader.run, lines 151-186)

The OpenCV image pipeline (blur, HSV conversion, thresholding, dilation,
contour extraction) is treated as opaque: the embedding starts from the list
of contours found in the thresholded-and-dilated mask.  Each contour carries
the data the tracking code reads off it: its contourArea key, the radius of
its minimum enclosing circle, and its spatial moments. -/

/-- The data the tracking code extracts from one contour. -/
structure Contour where
  area : ℚ
  encRadius : ℚ
  m00 : ℚ
  m10 : ℚ
  m01 : ℚ
  deriving DecidableEq, Repr

/-- Python max(list, key=f): the first element attaining the maximal key.  The
accumulator is replaced only on a strictly greater key, as CPython does. -/
def pyMaxBy (f : Contour → ℚ) (c : Contour) : List Contour → Contour
  | [] => c
  | d :: ds => pyMaxBy f (if f c < f d then d else c) ds

/-- Python int() truncation toward zero, applied to a rational. -/
def pyint (q : ℚ) : ℤ := if 0 ≤ q then ⌊q⌋ else ⌈q⌉

/-- Minimum required radius of the enclosing circle of a contour (line 152). -/
def MIN_RADIUS : ℚ := 2

/-- Lines 181-186 applied to the selected largest contour: the centroid is
computed only when the zeroth moment is positive, and it is discarded again
(center reset to None) when the enclosing radius is below MIN_RADIUS. -/
def centerOf (best : Contour) : Option (ℤ × ℤ) :=
  if 0 < best.m00 then
    if best.encRadius < MIN_RADIUS then none
    else some (pyint (best.m10 / best.m00), pyint (best.m01 / best.m00))
  else none

/-- The per-frame center/radius computation of VideoReader.run (lines 176-186):
center and radius start as None and 0; when contours exist, the largest-area
contour is selected, its enclosing-circle radius is stored, and the center is
derived by centerOf.  A total function: no exception is raised on any input. -/
def locate : List Contour → Option (ℤ × ℤ) × ℚ
  | [] => (none, 0)
  | c :: cs =>
    (centerOf (pyMaxBy (fun k => k.area) c cs),
     (pyMaxBy (fun k => k.area) c cs).encRadius)

/-! ## The capture loop (VideoReader.run, lines 155-158)

The while loop checks the kill flag, reads a frame, and raises an exception on
a failed read.  The exception ends run(); the Python threading machinery
absorbs it, so the only consumer-visible effect is that is_alive() becomes
false.  Lines 155-158 do not consult whether the capture handle came from the
live device (index 0) or from a video file: both kinds share this code path. -/

/-- One iteration of environment input for the capture loop: the value of the
kill flag when it is tested, and whether cap.read() succeeded. -/
structure CaptureIter where
  kill : Bool
  readOk : Bool
  deriving DecidableEq, Repr

/-- How the capture-loop thread ends, as seen over a finite input trace. -/
inductive LoopOutcome where
  /-- the kill flag was seen set and run() returned normally -/
  | exited
  /-- an uncaught exception ended run(); absorbed by the thread machinery -/
  | died (msg : String)
  /-- the input trace was exhausted with the loop still live -/
  | stillRunning
  deriving DecidableEq, Repr

/-- The while loop of VideoReader.run over a finite schedule of iterations. -/
def captureLoop : List CaptureIter → LoopOutcome
  | [] => .stillRunning
  | it :: rest =>
    if it.kill then .exited
    else if it.readOk then captureLoop rest
    else .died "Failed to get frame from capture device!"

/-- Thread.is_alive() as polled by consumers after the loop reached the given
outcome: false for both a normal exit and a death by exception. -/
def isAliveAfter : LoopOutcome → Bool
  | .stillRunning => true
  | _ => false

/-- The quit check at the bottom of the start_game main loop (lines 383-385):
the consumer leaves the loop when the q key was pressed or the reader thread
is no longer alive. -/
def startGameQuits (qPressed alive : Bool) : Bool := qPressed || !alive

/-! ## The repetition counter (Exercise.start_game, lines 358-378)

The guard at the top of start_game, then the per-iteration counting logic of
the main loop.  The loop reads the live center published by the reader thread
once per iteration; that value is the input of one observe step.  The index
into the calibration list starts at 0 and the code keeps it below the list
length (it is reset to 0 exactly when it reaches the length), so the embedded
lookup uses getD, whose default is never consulted on reachable states. -/

/-- Result of the guard at the top of Exercise.start_game (lines 358-363). -/
inductive StartGameCheck where
  /-- raise: capture device not initialized (reader thread not alive) -/
  | notInitialized
  /-- raise: device was not calibrated (empty calibration point list) -/
  | notCalibrated
  /-- fall through into the counting loop -/
  | proceeds
  deriving DecidableEq, Repr

/-- The start_game guard: the reader thread must be alive and the calibration
point list non-empty.  Only emptiness is checked, not the required count. -/
def startGameCheck (alive : Bool) (pts : List (ℤ × ℤ)) : StartGameCheck :=
  if !alive then .notInitialized
  else if pts.length = 0 then .notCalibrated
  else .proceeds

/-- The mutable state of the counting loop: the index of the calibration point
currently aimed at, and the number of completed repetitions. -/
structure RepState where
  index : ℕ
  count : ℕ
  deriving DecidableEq, Repr

/-- One iteration of the counting logic (lines 372-378): when the live center
is not None and lies strictly within the per-axis tolerances of the current
calibration point, the index advances by one; when the advanced index equals
the list length it is reset to 0 and the repetition count is incremented. -/
def observe (pts : List (ℤ × ℤ)) (tx ty : ℤ) (s : RepState) :
    Option (ℤ × ℤ) → RepState
  | none => s
  | some c =>
    if |c.1 - (pts.getD s.index (0, 0)).1| < tx ∧
       |c.2 - (pts.getD s.index (0, 0)).2| < ty then
      if s.index + 1 = pts.length then ⟨0, s.count + 1⟩
      else ⟨s.index + 1, s.count⟩
    else s

/-- The counting loop folded over a finite sequence of observed centers (the
stop conditions of the surrounding while loop, the repetition limit and the
quit check, are modelled separately and do not alter the counting logic). -/
def runObs (pts : List (ℤ × ℤ)) (tx ty : ℤ) : RepState → List (Option (ℤ × ℤ)) → RepState
  | s, [] => s
  | s, c :: cs => runObs pts tx ty (observe pts tx ty s c) cs

/-! ## The calibration loop (SimpleMotionExercise.calibrate, lines 445-484)

The loop body polls the live center, starts a dwell Timer thread when none is
running, and appends the live center to the calibration list when the timer
thread has died.  Timing is embedded through the environment: each poll
carries the wall-clock time elapsed since the current timer was started, and
the custom Timer thread of lines 263-270 (run() sleeps 99 intervals of
seconds/100) is alive while that elapsed time is below its duration,
scheduling and sleep overhead idealized away. -/

/-- The dwell length hardcoded at line 457 of calibrate.  The configured
calibration_duration field stored by the constructor is not consulted by
calibrate: every Timer it starts receives this constant. -/
def CALIBRATION_DURATION_SECS : ℚ := 10

/-- Whether the Timer thread of lines 263-270 is still alive when the given
time has elapsed since its start. -/
def timerAlive (seconds elapsed : ℚ) : Bool := elapsed < seconds

/-- State of the calibration loop: the points recorded so far (a recorded
point is whatever the live center held, possibly None), and the running dwell
timer with its duration, or none when the timer variable is None or its
initial 0. -/
structure CalibState where
  points : List (Option (ℤ × ℤ))
  timer : Option ℚ
  deriving DecidableEq, Repr

/-- Initial state of calibrate: empty point list (line 454), timer 0. -/
def calibInit : CalibState := ⟨[], none⟩

/-- Environment input of one calibration poll: the live center at the moment
of the is_alive test, the wall time elapsed since the current timer started,
and whether the end-of-iteration quit check fired (q pressed or reader dead). -/
structure CalibPoll where
  center : Option (ℤ × ℤ)
  elapsed : ℚ
  quit : Bool
  deriving DecidableEq, Repr

/-- Lines 466-471: re-initialize the timer if necessary, with the hardcoded
duration. -/
def startTimerIfNeeded (s : CalibState) : CalibState :=
  match s.timer with
  | none => { s with timer := some CALIBRATION_DURATION_SECS }
  | some _ => s

/-- Lines 473-477: store the live center when the timer has run out, and drop
the timer so that the next iteration starts a fresh one. -/
def recordIfElapsed (s : CalibState) (p : CalibPoll) : CalibState :=
  match s.timer with
  | some d =>
    if timerAlive d p.elapsed then s
    else { points := s.points ++ [p.center], timer := none }
  | none => s

/-- One full body of the calibration while loop. -/
def calibStep (s : CalibState) (p : CalibPoll) : CalibState :=
  recordIfElapsed (startTimerIfNeeded s) p

/-- The calibration while loop (lines 462-483) over a finite schedule of
polls: it keeps iterating while fewer than N points have been recorded, and a
poll whose quit flag is set ends the loop after its body ran. -/
def calibRun (N : ℕ) (s : CalibState) : List CalibPoll → CalibState
  | [] => s
  | p :: ps =>
    if s.points.length < N then
      if p.quit then calibStep s p else calibRun N (calibStep s p) ps
    else s

/-- The motion types of SimpleMotionExercise (class MotionType, line 34-35). -/
inductive MotionType where
  | flexion
  | abduction
  deriving DecidableEq, Repr

/-- Lines 450-453: the number of calibration points to record, 2 for the
flexion and abduction motion types (the variable starts at 0). -/
def numberOfCalibrationPoints (m : MotionType) : ℕ :=
  if m = .flexion ∨ m = .abduction then 2 else 0

/-! ## Constructors (Exercise.__init__ lines 281-303, RotationExercise 410-412)

The constructor embedding keeps the validations in source order and is
restricted to argv = None (process_args skipped) and an empty video path; the
thread and ROS side effects carry no data relevant to the claims.  The
RotationExercise constructor forwards six positional arguments to the base
constructor, so the time limit it was given is dropped and the base receives
its default 0; after the base constructor returns, the assignment at line 412
reads the name rotation, which is undefined there, raising NameError. -/

/-- Arguments of the base Exercise constructor that undergo validation. -/
structure ExerciseArgs where
  repetitionsLimit : ℤ
  calibrationDuration : PyNum
  cameraWidth : ℤ
  cameraHeight : ℤ
  color : ℤ
  limb : ℤ
  deriving Repr

/-- The validated state a successful base construction produces. -/
structure ExerciseState where
  repetitionsLimit : ℤ
  calibrationDuration : ℤ
  toleranceX : ℤ
  toleranceY : ℤ
  deriving DecidableEq, Repr

/-- Exercise.__init__ (lines 281-303): the setter validations in source order
(repetitions limit, calibration duration, limb, the time limit defaulting to
0, then the VideoReader constructor validating resolution and color), ending
with the tolerance computation. -/
def exerciseInit (a : ExerciseArgs) : Except PyErr ExerciseState := do
  let rl ← setRepetitionsLimit a.repetitionsLimit
  let cd ← setCalibrationDuration a.calibrationDuration
  let _ ← setLimb a.limb
  let _ ← setTimeLimit (.int 0)
  let _ ← setCameraResolution a.cameraWidth a.cameraHeight
  let _ ← setColor a.color
  return ⟨rl, cd, (tolerances a.cameraWidth a.cameraHeight).1,
          (tolerances a.cameraWidth a.cameraHeight).2⟩

/-- The body of RotationExercise.__init__ (lines 410-412), taken in
isolation: the base initializer runs first; if it returns, the assignment
from the undefined name rotation raises NameError.  The time limit and
rotation type arguments are never read before the failing line.  Through the
public constructor this body is unreachable: abstract-method enforcement
rejects the class before __init__ is entered, see rotationExerciseConstruct. -/
def rotationExerciseInit (a : ExerciseArgs) (_timeLimit : PyNum) (_rotationType : ℤ) :
    Except PyErr ExerciseState :=
  match exerciseInit a with
  | .error e => .error e
  | .ok _ => .error .nameError

/-- The abstract methods RotationExercise leaves unimplemented: Exercise is
built by ABCMeta (line 279) and declares calibrate abstract (lines 352-355);
RotationExercise never overrides it, its only calibrate being the comment at
lines 424-425, so ABCMeta records calibrate as still abstract on the
subclass. -/
def rotationExerciseAbstractMethods : List String := ["calibrate"]

/-- The public constructor call RotationExercise(...): Python instantiation
of an ABCMeta class whose set of abstract methods is non-empty raises
TypeError before __init__ runs; only with no abstract methods left would the
__init__ body execute. -/
def rotationExerciseConstruct (a : ExerciseArgs) (tl : PyNum) (rt : ℤ) :
    Except PyErr ExerciseState :=
  if rotationExerciseAbstractMethods = [] then rotationExerciseInit a tl rt
  else .error .typeError

/-- The allow-list of supported camera modes as the specification words it:
the listed axis values paired off, 320x180 through 1920x1080. -/
def specCameraModes : List (ℤ × ℤ) :=
  [(320, 180), (424, 240), (640, 360), (848, 480), (960, 540), (1280, 720), (1920, 1080)]

/-! ## Theorems -/

/-- Claim C1, counterexample: for calibration points (0,0),(10,0) with
tolerance (3,3) and the observation sequence (0,0),(10,0),(0,0), the count is
already 1 after the second observation (and still 0 after the first), so the
count does not become 1 exactly at the third observation as claimed: the wrap
to index 0 happens, and the count increments, at the observation matching the
last calibration point. -/
theorem repCount_becomes_one_at_second_observation :
    (runObs [(0, 0), (10, 0)] 3 3 ⟨0, 0⟩ [some (0, 0)]).count = 0 ∧
    (runObs [(0, 0), (10, 0)] 3 3 ⟨0, 0⟩ [some (0, 0), some (10, 0)]).count = 1 := by
  decide

/-- Claim C1 (amended): starting at target index 0, an observation advances
the current target index by exactly 1 exactly when its center is not None and
each coordinate is strictly within the per-axis tolerance of the current
target; when the advanced index reaches the list length it resets to 0 and
the count increments by 1; a center exactly toleranceX away on the x axis
never matches; and for points (0,0),(10,0) with tolerance (3,3) the sequence
(0,0),(10,0),(0,0) makes the count become 1 exactly at the second observation
and remain 1 at the third. -/
theorem observe_cycle_spec (pts : List (ℤ × ℤ)) (tx ty : ℤ) (s : RepState)
    (c : Option (ℤ × ℤ)) (_hidx : s.index < pts.length) :
    ((c = none → observe pts tx ty s c = s) ∧
     (∀ p, c = some p →
        ((|p.1 - (pts.getD s.index (0, 0)).1| < tx ∧
          |p.2 - (pts.getD s.index (0, 0)).2| < ty →
           (s.index + 1 = pts.length → observe pts tx ty s c = ⟨0, s.count + 1⟩) ∧
           (s.index + 1 ≠ pts.length →
             observe pts tx ty s c = ⟨s.index + 1, s.count⟩)) ∧
         (¬ (|p.1 - (pts.getD s.index (0, 0)).1| < tx ∧
             |p.2 - (pts.getD s.index (0, 0)).2| < ty) →
           observe pts tx ty s c = s) ∧
         (|p.1 - (pts.getD s.index (0, 0)).1| = tx →
           observe pts tx ty s c = s)))) ∧
    (runObs [(0, 0), (10, 0)] 3 3 ⟨0, 0⟩ [some (0, 0)]).count = 0 ∧
    (runObs [(0, 0), (10, 0)] 3 3 ⟨0, 0⟩ [some (0, 0), some (10, 0)]).count = 1 ∧
    (runObs [(0, 0), (10, 0)] 3 3 ⟨0, 0⟩
      [some (0, 0), some (10, 0), some (0, 0)]).count = 1 := by
  refine ⟨⟨?_, ?_⟩, by decide, by decide, by decide⟩
  · rintro rfl
    rfl
  · rintro ⟨px, py⟩ rfl
    refine ⟨?_, ?_, ?_⟩
    · rintro ⟨hx, hy⟩
      constructor
      · intro hlen
        simp only [observe]
        rw [if_pos ⟨hx, hy⟩, if_pos hlen]
      · intro hlen
        simp only [observe]
        rw [if_pos ⟨hx, hy⟩, if_neg hlen]
    · intro hno
      simp only [observe]
      rw [if_neg hno]
    · intro heq
      have hno : ¬ (|(px, py).1 - (pts.getD s.index (0, 0)).1| < tx ∧
          |(px, py).2 - (pts.getD s.index (0, 0)).2| < ty) := by
        rintro ⟨hx, _⟩
        rw [heq] at hx
        exact lt_irrefl tx hx
      simp only [observe]
      rw [if_neg hno]

/-- Witness for claim C1: at target index 1 of the two calibration points, a
matching observation wraps the index to 0 and increments the count. -/
theorem observe_cycle_spec_witness :
    observe [(0, 0), (10, 0)] 3 3 ⟨1, 0⟩ (some (10, 0)) = ⟨0, 1⟩ := by
  have h := (observe_cycle_spec [(0, 0), (10, 0)] 3 3 ⟨1, 0⟩ (some (10, 0))
    (by decide)).1.2 (10, 0) rfl
  exact (h.1 (by decide)).1 (by decide)

/-- Claim C2: the marker locator never throws; with no contours it reports
center None and radius 0; when the largest-area contour has zeroth moment 0
the center is None; and when the enclosing-circle radius of the largest
contour is below 2 the center is None while that radius is still reported. -/
theorem locate_noise_rejection (contours : List Contour) :
    locate [] = (none, 0) ∧
    (∀ c cs, contours = c :: cs →
      (locate contours).2 = (pyMaxBy (fun k => k.area) c cs).encRadius ∧
      ((pyMaxBy (fun k => k.area) c cs).m00 = 0 → (locate contours).1 = none) ∧
      ((pyMaxBy (fun k => k.area) c cs).encRadius < 2 →
        (locate contours).1 = none)) := by
  refine ⟨rfl, ?_⟩
  rintro c cs rfl
  refine ⟨rfl, ?_, ?_⟩
  · intro hm
    have h0 : ¬ 0 < (pyMaxBy (fun k => k.area) c cs).m00 := by
      rw [hm]
      exact lt_irrefl 0
    simp [locate, centerOf, h0]
  · intro hr
    by_cases h0 : 0 < (pyMaxBy (fun k => k.area) c cs).m00
    · have hr2 : (pyMaxBy (fun k => k.area) c cs).encRadius < MIN_RADIUS := hr
      simp [locate, centerOf, h0, hr2]
    · simp [locate, centerOf, h0]

/-- Witness for claim C2: a single degenerate contour with zeroth moment 0
and radius 1 yields center None with the radius still reported. -/
theorem locate_noise_rejection_witness :
    (locate [⟨1, 1, 0, 0, 0⟩]).1 = none ∧ (locate [⟨1, 1, 0, 0, 0⟩]).2 = 1 := by
  have h := (locate_noise_rejection [⟨1, 1, 0, 0, 0⟩]).2 ⟨1, 1, 0, 0, 0⟩ [] rfl
  refine ⟨h.2.1 rfl, ?_⟩
  rw [h.1]
  rfl

/-- Claim C3 (code bug): a configured dwell duration of 0 is accepted at
construction, but the first calibration poll starts a timer with the
hardcoded duration of 10 seconds, the configured field being ignored by
calibrate, and records nothing; a timer actually built with duration 0 would
already be dead, so the point would have been recorded immediately as the
claim demands. -/
theorem calibrate_hardcodes_dwell_duration :
    accepts (setCalibrationDuration (.int 0)) = true ∧
    (calibStep calibInit ⟨some (0, 0), 0, false⟩).timer =
      some CALIBRATION_DURATION_SECS ∧
    CALIBRATION_DURATION_SECS = 10 ∧
    (calibStep calibInit ⟨some (0, 0), 0, false⟩).points = [] ∧
    timerAlive 0 0 = false ∧
    timerAlive CALIBRATION_DURATION_SECS 0 = true := by
  decide

/-- Claim C4: two calibration points are required for the flexion and
abduction motion types; a poll whose timer has elapsed appends exactly the
live center of that poll, None included, and every step either appends that
center or leaves the recorded points unchanged; the calibration loop keeps
iterating exactly while fewer than N points are recorded and stops once N are
present. -/
theorem calibrate_records_live_center_and_stops (m : MotionType) (s : CalibState)
    (p : CalibPoll) (ps : List CalibPoll) (N : ℕ) :
    numberOfCalibrationPoints m = 2 ∧
    (∀ d, s.timer = some d → timerAlive d p.elapsed = false →
      (calibStep s p).points = s.points ++ [p.center]) ∧
    ((calibStep s p).points = s.points ∨
      (calibStep s p).points = s.points ++ [p.center]) ∧
    (N ≤ s.points.length → calibRun N s (p :: ps) = s) ∧
    (s.points.length < N → calibRun N s (p :: ps) =
      if p.quit then calibStep s p else calibRun N (calibStep s p) ps) := by
  obtain ⟨pts0, tm⟩ := s
  refine ⟨by cases m <;> rfl, ?_, ?_, ?_, ?_⟩
  · intro d hd hal
    subst hd
    simp [calibStep, startTimerIfNeeded, recordIfElapsed, hal]
  · cases tm with
    | none =>
      by_cases hal : timerAlive CALIBRATION_DURATION_SECS p.elapsed
      · left
        simp [calibStep, startTimerIfNeeded, recordIfElapsed, hal]
      · right
        simp [calibStep, startTimerIfNeeded, recordIfElapsed, hal]
    | some d =>
      by_cases hal : timerAlive d p.elapsed
      · left
        simp [calibStep, startTimerIfNeeded, recordIfElapsed, hal]
      · right
        simp [calibStep, startTimerIfNeeded, recordIfElapsed, hal]
  · intro hN
    simp [calibRun, Nat.not_lt.mpr hN]
  · intro hN
    simp [calibRun, hN]

/-- Witness for claim C4: an elapsed 10 second timer records the live center
even when it is None, and a run holding two recorded points processes no
further polls. -/
theorem calibrate_records_live_center_and_stops_witness :
    (calibStep ⟨[], some 10⟩ ⟨none, 10, false⟩).points = [] ++ [none] ∧
    calibRun 2 ⟨[some (1, 2), none], none⟩ [⟨some (3, 4), 0, false⟩] =
      ⟨[some (1, 2), none], none⟩ := by
  have h1 := calibrate_records_live_center_and_stops .flexion ⟨[], some 10⟩
    ⟨none, 10, false⟩ [] 2
  have h2 := calibrate_records_live_center_and_stops .flexion
    ⟨[some (1, 2), none], none⟩ ⟨some (3, 4), 0, false⟩ [] 2
  exact ⟨h1.2.1 10 rfl (by decide), h2.2.2.2.1 (by decide)⟩

/-- Helper for claim C5, discharged by evaluation over the 49 accepted
resolutions: on the allow-list the tolerance computation agrees with the
rule as the specification words it, and both tolerances are positive. -/
theorem tolerances_on_allowlist :
    ∀ w ∈ allowedWidths, ∀ h ∈ allowedHeights,
      tolerances w h = specTolerances w h ∧
      0 < (tolerances w h).1 ∧ 0 < (tolerances w h).2 := by
  decide

/-- Claim C5: for every resolution accepted at construction, the tolerances
are width/8 and height/8 by integer division, except width/6 for toleranceX
when the width exceeds twice the height and height/6 for toleranceY when the
height exceeds twice the width, and both tolerances are positive. -/
theorem tolerances_match_spec (w h : ℤ)
    (hacc : accepts (setCameraResolution w h) = true) :
    tolerances w h = specTolerances w h ∧
    0 < (tolerances w h).1 ∧ 0 < (tolerances w h).2 := by
  have hmem : w ∈ allowedWidths ∧ h ∈ allowedHeights := by
    by_cases h1 : w ∈ allowedWidths
    · by_cases h2 : h ∈ allowedHeights
      · exact ⟨h1, h2⟩
      · exfalso
        simp [setCameraResolution, accepts, h2] at hacc
    · exfalso
      simp [setCameraResolution, accepts, h1] at hacc
  exact tolerances_on_allowlist w hmem.1 h hmem.2

/-- Witness for claim C5 at the extreme aspect ratio 1920x180, where the
toleranceX override to width/6 fires. -/
theorem tolerances_match_spec_witness :
    accepts (setCameraResolution 1920 180) = true ∧
    (tolerances 1920 180 = specTolerances 1920 180 ∧
     0 < (tolerances 1920 180).1 ∧ 0 < (tolerances 1920 180).2) :=
  ⟨by decide, tolerances_match_spec 1920 180 (by decide)⟩

/-- Claim C6 (code bug): the calibration duration setter accepts exactly the
integers 0 through 29 and rejects 30 with ValueError, although its own error
message and comment describe the legal range as 0 to 30; non-integer values
are rejected with TypeError. -/
theorem calibration_duration_thirty_rejected :
    setCalibrationDuration (.int 30) = .error .valueError ∧
    setCalibrationDuration (.int 29) = .ok 29 ∧
    setCalibrationDuration (.int 0) = .ok 0 ∧
    setCalibrationDuration .nonint = .error .typeError ∧
    (∀ n : ℤ, accepts (setCalibrationDuration (.int n)) = true ↔ 0 ≤ n ∧ n ≤ 29) := by
  refine ⟨rfl, rfl, rfl, rfl, ?_⟩
  intro n
  constructor
  · intro ha
    by_cases h : 0 ≤ n ∧ n < 30
    · omega
    · simp [setCalibrationDuration, accepts, h] at ha
  · intro hn
    have h : 0 ≤ n ∧ n < 30 := ⟨hn.1, by omega⟩
    simp [setCalibrationDuration, accepts, h]

/-- Claim C7, counterexample: the mixed pair 320x1080 is accepted by the
resolution setter although it is not one of the listed camera modes. -/
theorem mixed_resolution_accepted_not_a_mode :
    accepts (setCameraResolution 320 1080) = true ∧
    (320, 1080) ∉ specCameraModes := by
  exact ⟨by decide, by decide⟩

/-- Claim C7 (amended): a resolution is accepted at construction exactly when
its width is one of the seven listed widths and its height one of the seven
listed heights, the two axes checked independently, so the accepted set is
the 49-element product of the axis lists rather than the 7 listed modes. -/
theorem camera_resolution_accepts_axis_product (w h : ℤ) :
    accepts (setCameraResolution w h) = true ↔
      (w, h) ∈ allowedWidths ×ˢ allowedHeights := by
  rw [List.mem_product]
  constructor
  · intro ha
    by_cases h1 : w ∈ allowedWidths
    · by_cases h2 : h ∈ allowedHeights
      · exact ⟨h1, h2⟩
      · exfalso
        simp [setCameraResolution, accepts, h2] at ha
    · exfalso
      simp [setCameraResolution, accepts, h1] at ha
  · rintro ⟨h1, h2⟩
    have hno : ¬ (w ∉ allowedWidths ∨ h ∉ allowedHeights) := by
      push_neg
      exact ⟨h1, h2⟩
    simp [setCameraResolution, accepts, hno]

/-- Witness for claim C7: the default resolution 640x480 is accepted. -/
theorem camera_resolution_accepts_axis_product_witness :
    accepts (setCameraResolution 640 480) = true :=
  (camera_resolution_accepts_axis_product 640 480).mpr (by decide)

/-- Claim C8: a failed frame read, on the shared code path used for live
devices and video files alike, ends the capture loop with an absorbed
exception; afterwards the liveness poll returns false exactly as it does
after a normal kill-flag exit, and the consumer loop quits as soon as the
liveness poll returns false. -/
theorem capture_read_failure_kills_loop (pre post : List CaptureIter)
    (hpre : ∀ it ∈ pre, it.kill = false ∧ it.readOk = true) :
    captureLoop (pre ++ ⟨false, false⟩ :: post) =
      .died "Failed to get frame from capture device!" ∧
    isAliveAfter (captureLoop (pre ++ ⟨false, false⟩ :: post)) = false ∧
    isAliveAfter .exited = false ∧
    (∀ q, startGameQuits q false = true) := by
  have hmain : ∀ pre2 : List CaptureIter,
      (∀ it ∈ pre2, it.kill = false ∧ it.readOk = true) →
      captureLoop (pre2 ++ ⟨false, false⟩ :: post) =
        .died "Failed to get frame from capture device!" := by
    intro pre2
    induction pre2 with
    | nil => intro _; rfl
    | cons it rest ih =>
      intro hp
      obtain ⟨hk, hr⟩ := hp it (List.mem_cons_self it rest)
      have h2 := ih (fun x hx => hp x (List.mem_cons_of_mem it hx))
      simpa [captureLoop, hk, hr] using h2
  refine ⟨hmain pre hpre, ?_, rfl, by decide⟩
  rw [hmain pre hpre]
  rfl

/-- Witness for claim C8: one successful iteration followed by a failed read
leaves the loop dead and unobservable except through liveness. -/
theorem capture_read_failure_kills_loop_witness :
    captureLoop [⟨false, true⟩, ⟨false, false⟩] =
      .died "Failed to get frame from capture device!" ∧
    isAliveAfter (captureLoop [⟨false, true⟩, ⟨false, false⟩]) = false := by
  have h := capture_read_failure_kills_loop [⟨false, true⟩] [] (by decide)
  exact ⟨h.1, h.2.1⟩

/-- Claim C9, counterexample: with the reader alive, a partial calibration
set holding 1 of the 2 points required for flexion passes the start_game
guard, and the counting loop then counts a repetition against the single
recorded point. -/
theorem start_game_accepts_partial_calibration :
    startGameCheck true [(0, 0)] = .proceeds ∧
    numberOfCalibrationPoints .flexion = 2 ∧
    ([(0, 0)] : List (ℤ × ℤ)).length < numberOfCalibrationPoints .flexion ∧
    runObs [(0, 0)] 3 3 ⟨0, 0⟩ [some (0, 0)] = ⟨0, 1⟩ := by
  decide

/-- Claim C9 (amended): the start_game guard rejects only an empty
calibration set (and a dead reader thread); any non-empty set, including a
partial one with fewer points than the exercise requires, passes the guard
and counting proceeds. -/
theorem start_game_guard_checks_emptiness_only (pts : List (ℤ × ℤ)) :
    (startGameCheck true pts = .proceeds ↔ pts ≠ []) ∧
    startGameCheck true [] = .notCalibrated ∧
    startGameCheck false pts = .notInitialized := by
  refine ⟨?_, rfl, rfl⟩
  cases pts with
  | nil => simp [startGameCheck]
  | cons p ps => simp [startGameCheck]

/-- Witness for claim C9: a one-point set passes the guard. -/
theorem start_game_guard_checks_emptiness_only_witness :
    startGameCheck true [(5, 5)] = .proceeds :=
  (start_game_guard_checks_emptiness_only [(5, 5)]).1.mpr (by decide)

/-- Claim C10, counterexample: with default-like arguments that would survive
every base-class validation, the public constructor call raises TypeError
from abstract-method enforcement, not the claimed NameError after base-class
initialization: calibrate is still abstract on RotationExercise, so the
failure happens before __init__ runs. -/
theorem rotation_exercise_raises_type_error_not_name_error :
    rotationExerciseConstruct ⟨10, .int 10, 640, 480, 0, 0⟩ (.int 0) 0 =
      .error .typeError ∧
    rotationExerciseConstruct ⟨10, .int 10, 640, 480, 0, 0⟩ (.int 0) 0 ≠
      .error .nameError ∧
    accepts (exerciseInit ⟨10, .int 10, 640, 480, 0, 0⟩) = true := by
  refine ⟨rfl, ?_, by decide⟩
  intro hc
  exact PyErr.noConfusion (Except.error.inj hc)

/-- Claim C10 (amended): constructing a RotationExercise never succeeds, but
through TypeError raised by abstract-method enforcement at instantiation,
before __init__ and the base-class initialization run, for every combination
of constructor arguments; the NameError assignment at line 412 is dead code
through the public constructor, although the __init__ body in isolation would
raise that NameError whenever the base initialization goes through. -/
theorem rotation_exercise_abstract_type_error (a : ExerciseArgs) (tl : PyNum) (rt : ℤ) :
    rotationExerciseConstruct a tl rt = .error .typeError ∧
    (∀ st, rotationExerciseConstruct a tl rt ≠ .ok st) ∧
    (accepts (exerciseInit a) = true →
      rotationExerciseInit a tl rt = .error .nameError) := by
  refine ⟨rfl, ?_, ?_⟩
  · intro st hc
    exact Except.noConfusion hc
  · intro hok
    unfold rotationExerciseInit
    cases h : exerciseInit a with
    | error e =>
      rw [h] at hok
      simp [accepts] at hok
    | ok s0 =>
      rfl

/-- Witness for claim C10: a second set of valid arguments is rejected with
TypeError by the public constructor, while the isolated __init__ body on the
same arguments would reach the NameError line. -/
theorem rotation_exercise_abstract_type_error_witness :
    rotationExerciseConstruct ⟨20, .int 5, 320, 240, 1, 2⟩ (.int 0) 1 =
      .error .typeError ∧
    rotationExerciseInit ⟨20, .int 5, 320, 240, 1, 2⟩ (.int 0) 1 =
      .error .nameError := by
  have h := rotation_exercise_abstract_type_error ⟨20, .int 5, 320, 240, 1, 2⟩
    (.int 0) 1
  exact ⟨h.1, h.2.2 (by decide)⟩

end Rehab
